import Mathlib

/-!
Verification development for the Twilio/OpenAI realtime voice-call bridge.

The definitions below are a shallow embedding of `src/sessionManager.ts`,
`src/retryManager.ts` and the status-callback route of `src/server.ts`:
sessions are records, the process-wide `Map`s are association lists, and
every side effect (websocket send, broadcast, `setTimeout`/`clearTimeout`,
connection close, delayed re-dial) is reified as an element of an `Output`
list returned by the handler that performs it.
-/

/-! ## JavaScript-semantics helpers -/

/-- Leading-match test on character lists: `leadMatch l p` holds when `p`
is an initial segment of `l`. -/
def leadMatch : List Char → List Char → Bool
  | _, [] => true
  | [], _ :: _ => false
  | a :: as, b :: bs => a == b && leadMatch as bs

/-- Substring occurrence test on character lists. -/
def hasSubList : List Char → List Char → Bool
  | [], sub => sub.isEmpty
  | a :: rest, sub => leadMatch (a :: rest) sub || hasSubList rest sub

/-- JavaScript `String.prototype.includes`: the needle occurs somewhere in
the haystack (anywhere, not only as the whole string). -/
def tsIncludes (s sub : String) : Bool :=
  hasSubList s.toList sub.toList

/-- JavaScript truthiness of an optional string: `undefined` and the empty
string are falsy. -/
def tsTruthyStr : Option String → Bool
  | none => false
  | some s => s ≠ ""

/-- JavaScript truthiness of an optional number: `undefined` and `0` are
falsy. -/
def tsTruthyInt : Option Int → Bool
  | none => false
  | some v => v ≠ 0

/-- Conditional object-spread `...(x && {x})`: keeps the field only when
the value is truthy. -/
def tsOptStr (o : Option String) : Option String :=
  match o with
  | none => none
  | some s => if s = "" then none else some s

/-! ## Association-list model of the JavaScript `Map`s -/

/-- `Map.get`. -/
def mapGet {α : Type} (k : String) : List (String × α) → Option α
  | [] => none
  | (k', v) :: rest => if k' = k then some v else mapGet k rest

/-- `Map.set` (overwrites an existing binding, appends otherwise). -/
def mapSet {α : Type} (k : String) (v : α) : List (String × α) → List (String × α)
  | [] => [(k, v)]
  | (k', v') :: rest => if k' = k then (k, v) :: rest else (k', v') :: mapSet k v rest

/-- `Map.delete` (removes every binding of the key; keys are unique in a
JavaScript `Map`, so this is the same deletion). -/
def mapDelete {α : Type} (k : String) : List (String × α) → List (String × α)
  | [] => []
  | (k', v') :: rest => if k' = k then mapDelete k rest else (k', v') :: mapDelete k rest

theorem mapGet_mapSet_self {α : Type} (k : String) (v : α) (m : List (String × α)) :
    mapGet k (mapSet k v m) = some v := by
  induction m with
  | nil => simp [mapSet, mapGet]
  | cons p rest ih =>
      obtain ⟨k', v'⟩ := p
      by_cases h : k' = k <;> simp [mapSet, mapGet, h, ih]

theorem mapGet_mapDelete_self {α : Type} (k : String) (m : List (String × α)) :
    mapGet k (mapDelete k m) = none := by
  induction m with
  | nil => simp [mapDelete, mapGet]
  | cons p rest ih =>
      obtain ⟨k', v'⟩ := p
      by_cases h : k' = k <;> simp [mapDelete, mapGet, h, ih]

/-! ## Data model: the per-call `Session` record (src/sessionManager.ts) -/

/-- Timer kinds owned by a session (the `setTimeout` call sites of
`sessionManager.ts`) plus the retry scheduler's delayed re-dial. -/
inductive TimerKind where
  | greeting
  | silence
  | speech
  | bargeArm
  | endCallDelay
  | escalationDelay
deriving DecidableEq, Repr

/-- Annotation attached to every frontend broadcast of a model event
(`eventWithPhoneInfo` in `handleModelMessage`): each field is present only
when the corresponding session value is truthy. -/
structure Annotated where
  fromPhoneNumber : Option String
  toPhoneNumber : Option String
  callSid : Option String
deriving DecidableEq, Repr

/-- Reified side effects of the handlers. -/
inductive Output where
  | appendToModel (payload : String)
  | itemCreateToModel (text : String)
  | responseCreateToModel
  | truncateToModel (itemId : String) (audioEndMs : Int)
  | sessionUpdateToModel
  | mediaToTwilio (payload : String)
  | markToTwilio (name : String)
  | clearToTwilio
  | closeTwilio
  | closeModel
  | closeFrontend
  | setTimer (t : TimerKind)
  | clearTimer (t : TimerKind)
  | templateSet (reason : String)
  | callStartedBroadcast (streamSid : String) (callSid fromNum toNum : Option String)
  | sessionCreatedBroadcast (sessionId : String) (callSid fromNum toNum : Option String)
  | callEndedBroadcast (streamSid : String) (callSid fromNum toNum : Option String)
  | modelEventBroadcast (a : Annotated)
  | scheduleDial (toNum fromNum : String)
deriving DecidableEq, Repr

/-- The `Session` object of `src/types.ts` as used by `sessionManager.ts`.
Connections are modelled by presence flags; pending `setTimeout`s by
booleans (their callbacks are the `fire…` functions below). -/
structure Session where
  streamSid : String
  callSid : Option String
  openAIApiKey : String
  latestMediaTimestamp : Int
  hasAssistantSpoken : Bool
  isModelErr : Bool
  callerState : String
  fromPhoneNumber : Option String
  toPhoneNumber : Option String
  isSpeechStopped : Bool
  isBargeInAvailable : Bool
  isAiSpeaking : Bool
  lastAssistantItemId : Option String
  responseStartTimestamp : Option Int
  escalationTriggered : Bool
  greetingTimer : Bool
  silenceTimer : Bool
  speechTimer : Bool
  endCallTimer : Bool
  escalationTimer : Bool
  twilioConn : Bool
  modelConn : Bool
  frontendConn : Bool
deriving DecidableEq, Repr

/-- The session literal built in the `start` case of `handleTwilioMessage`
(fields not listed there are `undefined`, i.e. `none`/`false`). -/
def initSession (streamSid : String) (callSid : Option String) (apiKey : String)
    (info : Option (String × String)) : Session :=
  { streamSid := streamSid
    callSid := callSid
    openAIApiKey := apiKey
    latestMediaTimestamp := 0
    hasAssistantSpoken := false
    isModelErr := false
    callerState := "idle"
    fromPhoneNumber := info.map Prod.fst
    toPhoneNumber := info.map Prod.snd
    isSpeechStopped := false
    isBargeInAvailable := false
    isAiSpeaking := false
    lastAssistantItemId := none
    responseStartTimestamp := none
    escalationTriggered := false
    greetingTimer := false
    silenceTimer := false
    speechTimer := false
    endCallTimer := false
    escalationTimer := false
    twilioConn := true
    modelConn := false
    frontendConn := false }

/-- `eventWithPhoneInfo`: the conditional spread that annotates every
broadcast model event with the session's phone metadata. -/
def eventWithPhoneInfo (s : Session) : Annotated :=
  { fromPhoneNumber := tsOptStr s.fromPhoneNumber
    toPhoneNumber := tsOptStr s.toPhoneNumber
    callSid := tsOptStr s.callSid }

/-! ## Session-level handlers -/

/-- `interruptAssistant` (src/sessionManager.ts lines 593-622). -/
def interruptAssistant (s : Session) : Session × List Output :=
  if !(tsTruthyStr s.lastAssistantItemId) || s.responseStartTimestamp = none then
    (s, [])
  else if !s.isBargeInAvailable then
    (s, [])
  else
    let elapsedMs := s.latestMediaTimestamp - (s.responseStartTimestamp.getD 0)
    ({ s with
        callerState := "speaking"
        lastAssistantItemId := none
        responseStartTimestamp := none },
     [Output.truncateToModel (s.lastAssistantItemId.getD "") (max 0 elapsedMs),
      Output.clearToTwilio])

/-- `handleSilence` (lines 624-650): inject the synthetic no-activity
prompt and move the caller state to `silence`. -/
def handleSilence (s : Session) : Session × List Output :=
  if !s.modelConn then (s, [])
  else
    ({ s with callerState := "silence" },
     [Output.itemCreateToModel "<<Silence>>", Output.responseCreateToModel])

/-- `endCall` (lines 368-394): set the goodbye template and close both
connections. -/
def endCall (s : Session) : Session × List Output :=
  let o0 := if s.callerState = "silence" then [Output.templateSet "silence-goodbye"] else []
  let o1 := if s.callerState = "idle" then [Output.templateSet "idle-goodbye"] else []
  (s,
   o0 ++ o1 ++ [Output.clearToTwilio]
      ++ (if s.twilioConn then [Output.closeTwilio] else [])
      ++ (if s.modelConn then [Output.closeModel] else []))

/-- `triggerEscalation` (lines 334-364): once per session, set the
escalation template and tear down both connections. -/
def triggerEscalation (s : Session) : Session × List Output :=
  if s.escalationTriggered then (s, [])
  else
    ({ s with escalationTriggered := true },
     [Output.templateSet (if s.isModelErr then "model-error" else "hold-for-agent"),
      Output.clearToTwilio]
      ++ (if s.twilioConn then [Output.closeTwilio] else [])
      ++ (if s.modelConn then [Output.closeModel] else []))

/-- `sendGreeting` (lines 652-673). -/
def sendGreeting (s : Session) : Session × List Output :=
  if !s.modelConn || s.hasAssistantSpoken then (s, [])
  else
    ({ s with hasAssistantSpoken := true },
     [Output.itemCreateToModel "<<Greeting>>", Output.responseCreateToModel])

/-! ## Model (OpenAI realtime) events: `handleModelMessage` -/

/-- The model events `handleModelMessage` distinguishes. A
`response.output_item.done` with a message item carrying a transcript is
`outputItemDoneMessage`; any event shape it ignores is `otherEvt`. -/
inductive ModelEv where
  | errorEvt
  | responseDone (outputLen : Nat) (status : String)
  | transcriptionFailed (errMsg : String)
  | speechStopped
  | speechStarted
  | audioDelta (itemId : Option String) (deltaPayload : String)
  | audioDone
  | outputItemDoneMessage (transcript : String)
  | otherEvt
deriving DecidableEq, Repr

/-- The message-item branch of the `response.output_item.done` case
(lines 508-561).  The boolean marks the early `return` taken when the
escalation sentinel is found, which skips the final frontend broadcast. -/
def handleOutputItemMessage (s : Session) (text : String) :
    Session × List Output × Bool :=
  if text = "" then (s, [], false)
  else if tsIncludes text "/////" then
    let s1 := if s.callerState = "speaking" then { s with callerState := "idle" } else s
    (s1, [Output.markToTwilio "trigger_escalation"], true)
  else if tsIncludes text "/?/" ∧ s.callerState ≠ "silence" then
    let s1 := if s.callerState = "speaking" then { s with callerState := "idle" } else s
    (s1, [Output.markToTwilio "end_call_triggered"], false)
  else (s, [], false)

/-- `handleModelMessage` (lines 396-590): the leading `switch` (only the
transcription-failure rate-limit arm mutates anything), the `if` chain on
the event type, and the final annotated frontend broadcast (skipped by the
escalation-sentinel early return). -/
def handleModelMessage (s : Session) (e : ModelEv) : Session × List Output :=
  let pre :=
    match e with
    | ModelEv.transcriptionFailed m =>
        if tsIncludes m "Too Many Requests" then
          triggerEscalation { s with isModelErr := true }
        else (s, [])
    | _ => (s, [])
  let s1 := pre.1
  let next : Session × List Output × Bool :=
    match e with
    | ModelEv.speechStopped => ({ s1 with isSpeechStopped := true }, [], false)
    | ModelEv.speechStarted =>
        let co := if s1.speechTimer then [Output.clearTimer TimerKind.speech] else []
        ({ s1 with isSpeechStopped := false, speechTimer := true },
         co ++ [Output.setTimer TimerKind.speech], false)
    | ModelEv.audioDelta itemId deltaPayload =>
        let sa := { s1 with hasAssistantSpoken := true, isAiSpeaking := true }
        let sb :=
          if !(tsTruthyInt sa.responseStartTimestamp) then
            { sa with responseStartTimestamp := some sa.latestMediaTimestamp }
          else sa
        let ob :=
          if !(tsTruthyInt sa.responseStartTimestamp) then [Output.setTimer TimerKind.bargeArm]
          else []
        let sc := if tsTruthyStr itemId then { sb with lastAssistantItemId := itemId } else sb
        (sc, ob ++ [Output.mediaToTwilio deltaPayload], false)
    | ModelEv.audioDone =>
        let sa := if s1.callerState = "speaking" then { s1 with callerState := "idle" } else s1
        (sa, [Output.markToTwilio "ai_done"], false)
    | ModelEv.outputItemDoneMessage t => handleOutputItemMessage s1 t
    | _ => (s1, [], false)
  if next.2.2 then (next.1, pre.2 ++ next.2.1)
  else (next.1, pre.2 ++ next.2.1 ++ [Output.modelEventBroadcast (eventWithPhoneInfo next.1)])

/-! ## Telephony (Twilio) events and timer callbacks -/

/-- The `media` case of `handleTwilioMessage` (lines 160-171). -/
def handleMediaEvt (s : Session) (timestamp : Int) (payload : String) :
    Session × List Output :=
  if !s.modelConn then (s, [])
  else ({ s with latestMediaTimestamp := timestamp }, [Output.appendToModel payload])

/-- The `mark` case of `handleTwilioMessage` (lines 173-229): any mark
clears `isAiSpeaking`; `ai_done` re-arms the silence timer; the two
sentinel-echo marks schedule the deferred end-call / escalation timeouts. -/
def handleMarkEvt (s : Session) (name : String) : Session × List Output :=
  if !s.modelConn then (s, [])
  else
    let s0 := { s with isAiSpeaking := false }
    let r1 : Session × List Output :=
      if name = "ai_done" then
        let co := if s0.silenceTimer then [Output.clearTimer TimerKind.silence] else []
        ({ s0 with isBargeInAvailable := false, silenceTimer := true },
         co ++ [Output.setTimer TimerKind.silence])
      else (s0, [])
    let r2 : Session × List Output :=
      if name = "end_call_triggered" then
        ({ r1.1 with endCallTimer := true }, [Output.setTimer TimerKind.endCallDelay])
      else (r1.1, [])
    let r3 : Session × List Output :=
      if name = "trigger_escalation" then
        ({ r2.1 with escalationTimer := true }, [Output.setTimer TimerKind.escalationDelay])
      else (r2.1, [])
    (r3.1, r1.2 ++ r2.2 ++ r3.2)

/-- The silence-timer callback armed in the `ai_done` branch
(lines 188-207). -/
def fireSilenceTimer (s : Session) : Session × List Output :=
  let s0 := { s with silenceTimer := false }
  if s0.callerState = "idle" then
    if !s0.isAiSpeaking then handleSilence s0 else (s0, [])
  else if s0.callerState = "silence" then endCall s0
  else if s0.callerState = "speaking" then ({ s0 with callerState := "idle" }, [])
  else (s0, [])

/-- The greeting-timer callback armed on model-connection open
(lines 286-291). -/
def fireGreetingTimer (s : Session) : Session × List Output :=
  let s0 := { s with greetingTimer := false }
  if s0.callerState = "idle" ∧ !s0.hasAssistantSpoken then sendGreeting s0 else (s0, [])

/-- The 300 ms speech-settle callback armed on `speech_started`
(lines 449-464): a confirmed barge-in cancels the silence and greeting
timers, arms barge-in, and interrupts the assistant. -/
def fireSpeechTimer (s : Session) : Session × List Output :=
  let s0 := { s with speechTimer := false }
  if !s0.isSpeechStopped then
    let co1 := if s0.silenceTimer then [Output.clearTimer TimerKind.silence] else []
    let co2 := if s0.greetingTimer then [Output.clearTimer TimerKind.greeting] else []
    let s1 := { s0 with silenceTimer := false, greetingTimer := false,
                        isBargeInAvailable := true }
    let r := interruptAssistant s1
    (r.1, co1 ++ co2 ++ r.2)
  else (s0, [])

/-- The 5 s end-call timeout armed on the `end_call_triggered` mark echo
(lines 213-217). -/
def fireEndCallTimer (s : Session) : Session × List Output :=
  let s0 := { s with endCallTimer := false }
  if s0.callerState ≠ "speaking" then endCall s0 else (s0, [])

/-- The 800 ms escalation timeout armed on the `trigger_escalation` mark
echo (lines 222-226). -/
def fireEscalationTimer (s : Session) : Session × List Output :=
  let s0 := { s with escalationTimer := false }
  if s0.callerState ≠ "speaking" then triggerEscalation s0 else (s0, [])

/-- One session-level event: a model message, a telephony media/mark
frame, or the expiry of one of the session's pending timers. -/
inductive SEv where
  | modelMsg (e : ModelEv)
  | twilioMedia (timestamp : Int) (payload : String)
  | twilioMark (name : String)
  | fireGreeting
  | fireSilence
  | fireSpeech
  | fireBarge
  | fireEndCallDelay
  | fireEscalationDelay
deriving DecidableEq, Repr

/-- Single step of the per-session state machine. -/
def stepS (s : Session) (e : SEv) : Session × List Output :=
  match e with
  | SEv.modelMsg m => handleModelMessage s m
  | SEv.twilioMedia ts p => handleMediaEvt s ts p
  | SEv.twilioMark n => handleMarkEvt s n
  | SEv.fireGreeting => fireGreetingTimer s
  | SEv.fireSilence => fireSilenceTimer s
  | SEv.fireSpeech => fireSpeechTimer s
  | SEv.fireBarge => ({ s with isBargeInAvailable := true }, [])
  | SEv.fireEndCallDelay => fireEndCallTimer s
  | SEv.fireEscalationDelay => fireEscalationTimer s

/-- Run a sequence of session-level events, keeping the state. -/
def runS (s : Session) (evs : List SEv) : Session :=
  evs.foldl (fun s e => (stepS s e).1) s

/-! ## Registry level: the `sessions` and `pendingCallInfo` maps -/

/-- Process-wide state of `sessionManager.ts`: the session registry and
the webhook call-info staging map (`CallSid` mapped to `from`, `to`). -/
structure SMState where
  sessions : List (String × Session)
  pendingCallInfo : List (String × (String × String))
deriving DecidableEq, Repr

/-- `storeCallInfo` (lines 20-23): stage webhook call info by `CallSid`.
It only writes the staging map; it never touches an existing session. -/
def storeCallInfo (st : SMState) (callSid fromNum toNum : String) : SMState :=
  { st with pendingCallInfo := mapSet callSid (fromNum, toNum) st.pendingCallInfo }

/-- `retrieveCallInfo` (lines 26-34): take-once read of staged call info
(a falsy `callSid` yields nothing). -/
def retrieveCallInfo (p : List (String × (String × String))) (callSid : Option String) :
    Option (String × String) × List (String × (String × String)) :=
  if !(tsTruthyStr callSid) then (none, p)
  else
    match mapGet (callSid.getD "") p with
    | some info => (some info, mapDelete (callSid.getD "") p)
    | none => (none, p)

/-- The `start` case of `handleTwilioMessage` (lines 104-158): build a
fresh session, store it (overwriting any binding of the stream id),
broadcast `call.started`, and connect the model (the socket object is
assigned synchronously inside `connectModel`). -/
def handleStart (st : SMState) (streamSid : String) (callSid : Option String)
    (apiKey : String) : SMState × List Output :=
  let r := retrieveCallInfo st.pendingCallInfo callSid
  let session := { initSession streamSid callSid apiKey r.1 with modelConn := true }
  ({ sessions := mapSet streamSid session st.sessions, pendingCallInfo := r.2 },
   [Output.callStartedBroadcast streamSid callSid (r.1.map Prod.fst) (r.1.map Prod.snd)])

/-- The model connection's `open` handler (lines 250-301): send the
session configuration, arm the greeting timer, broadcast
`session.created` with the session's phone metadata. -/
def handleModelOpen (s : Session) : Session × List Output :=
  ({ s with greetingTimer := true },
   [Output.sessionUpdateToModel, Output.setTimer TimerKind.greeting,
    Output.sessionCreatedBroadcast s.streamSid s.callSid s.fromPhoneNumber s.toPhoneNumber])

/-- `closeSession` (lines 686-708): a no-op when the stream id is not in
the registry; otherwise broadcast `call.ended`, close the connections,
clear the greeting timer (only that one), and delete the entry. -/
def closeSession (r : List (String × Session)) (streamSid : String) :
    List (String × Session) × List Output :=
  match mapGet streamSid r with
  | none => (r, [])
  | some s =>
      (mapDelete streamSid r,
       [Output.callEndedBroadcast streamSid s.callSid s.fromPhoneNumber s.toPhoneNumber]
        ++ (if s.twilioConn then [Output.closeTwilio] else [])
        ++ (if s.modelConn then [Output.closeModel] else [])
        ++ (if s.frontendConn then [Output.closeFrontend] else [])
        ++ (if s.greetingTimer then [Output.clearTimer TimerKind.greeting] else []))

/-! ## Retry scheduler (src/retryManager.ts and the status route) -/

def MAX_RETRIES : Nat := 3

/-- `scheduleRetry` (src/retryManager.ts lines 13-39): bounded counter per
destination; below the ceiling, bump the counter and schedule one delayed
re-dial; at the ceiling, drop the key and do nothing. -/
def scheduleRetry (m : List (String × Nat)) (toNum fromNum : String) :
    List (String × Nat) × List Output :=
  let attempts := (mapGet toNum m).getD 0
  if attempts ≥ MAX_RETRIES then (mapDelete toNum m, [])
  else (mapSet toNum (attempts + 1) m, [Output.scheduleDial toNum fromNum])

/-- `clearRetry` (src/retryManager.ts lines 41-43). -/
def clearRetry (m : List (String × Nat)) (toNum : String) : List (String × Nat) :=
  mapDelete toNum m

/-- The `/twilio/status` route of the server (busy schedules a retry,
completed clears the counter). -/
def handleStatusCallback (m : List (String × Nat)) (callStatus toNum fromNum : String) :
    List (String × Nat) × List Output :=
  let r := if callStatus = "busy" then scheduleRetry m toNum fromNum else (m, [])
  if callStatus = "completed" then (clearRetry r.1 toNum, r.2) else r

/-! ## Output-counting helpers -/

/-- Number of truncate instructions sent to the model in an output list. -/
def countTruncate : List Output → Nat
  | [] => 0
  | Output.truncateToModel _ _ :: rest => countTruncate rest + 1
  | _ :: rest => countTruncate rest

/-- Number of `mark` requests with a given name sent to telephony. -/
def countMark (name : String) : List Output → Nat
  | [] => 0
  | Output.markToTwilio n :: rest =>
      (if n = name then 1 else 0) + countMark name rest
  | _ :: rest => countMark name rest

/-- Number of `setTimeout` registrations of a given timer kind. -/
def countSetTimer (t : TimerKind) : List Output → Nat
  | [] => 0
  | Output.setTimer t' :: rest =>
      (if t' = t then 1 else 0) + countSetTimer t rest
  | _ :: rest => countSetTimer t rest

/-- Number of synthesized conversation items with a given text (the
silence / greeting prompts). -/
def countItemCreate (text : String) : List Output → Nat
  | [] => 0
  | Output.itemCreateToModel t :: rest =>
      (if t = text then 1 else 0) + countItemCreate text rest
  | _ :: rest => countItemCreate text rest

/-- Number of `call.ended` frontend notifications. -/
def countCallEnded : List Output → Nat
  | [] => 0
  | Output.callEndedBroadcast _ _ _ _ :: rest => countCallEnded rest + 1
  | _ :: rest => countCallEnded rest

theorem countCallEnded_append (a b : List Output) :
    countCallEnded (a ++ b) = countCallEnded a + countCallEnded b := by
  induction a with
  | nil => simp [countCallEnded]
  | cons x rest ih => cases x <;> simp [countCallEnded, ih] <;> omega

theorem countItemCreate_append (text : String) (a b : List Output) :
    countItemCreate text (a ++ b) = countItemCreate text a + countItemCreate text b := by
  induction a with
  | nil => simp [countItemCreate]
  | cons x rest ih => cases x <;> simp [countItemCreate, ih] <;> omega

theorem countMark_append (name : String) (a b : List Output) :
    countMark name (a ++ b) = countMark name a + countMark name b := by
  induction a with
  | nil => simp [countMark]
  | cons x rest ih => cases x <;> simp [countMark, ih] <;> omega

theorem countSetTimer_append (t : TimerKind) (a b : List Output) :
    countSetTimer t (a ++ b) = countSetTimer t a + countSetTimer t b := by
  induction a with
  | nil => simp [countSetTimer]
  | cons x rest ih => cases x <;> simp [countSetTimer, ih] <;> omega

/-! ## Claim theorems -/

/-- Claim C2: with an assistant turn in flight (`lastAssistantItemId` a
real item id, `responseStartTimestamp = T0`) and barge-in armed, a
confirmed interruption sends exactly one truncate instruction whose
`audio_end_ms` is `latestMediaTimestamp - T0` when `latestMediaTimestamp ≥ T0`
and `0` otherwise. -/
theorem interrupt_truncate_elapsed (s : Session) (idv : String) (t0 : Int)
    (hid : s.lastAssistantItemId = some idv) (hne : idv ≠ "")
    (ht0 : s.responseStartTimestamp = some t0)
    (hb : s.isBargeInAvailable = true) :
    (interruptAssistant s).2 =
      [Output.truncateToModel idv
         (if t0 ≤ s.latestMediaTimestamp then s.latestMediaTimestamp - t0 else 0),
       Output.clearToTwilio]
    ∧ countTruncate (interruptAssistant s).2 = 1 := by
  have hmax : max 0 (s.latestMediaTimestamp - t0)
      = if t0 ≤ s.latestMediaTimestamp then s.latestMediaTimestamp - t0 else 0 := by
    split_ifs <;> omega
  have htr : tsTruthyStr (some idv) = true := by
    simp [tsTruthyStr, hne]
  constructor
  · simp [interruptAssistant, htr, hid, ht0, hb, hmax]
  · simp [interruptAssistant, htr, hid, ht0, hb, countTruncate]

/-- Claim C2 witness: the spec scenario `T0 = 1000`, interrupt at
`latestMediaTimestamp = 1450`, truncate carries `450`. -/
theorem interrupt_truncate_elapsed_witness :
    ((interruptAssistant
        { initSession "S1" (some "CA1") "key" none with
            modelConn := true
            lastAssistantItemId := some "item1"
            responseStartTimestamp := some 1000
            latestMediaTimestamp := 1450
            isBargeInAvailable := true }).2
      = [Output.truncateToModel "item1" 450, Output.clearToTwilio])
    ∧ countTruncate (interruptAssistant
        { initSession "S1" (some "CA1") "key" none with
            modelConn := true
            lastAssistantItemId := some "item1"
            responseStartTimestamp := some 1000
            latestMediaTimestamp := 1450
            isBargeInAvailable := true }).2 = 1 := by
  have h := interrupt_truncate_elapsed
    { initSession "S1" (some "CA1") "key" none with
        modelConn := true
        lastAssistantItemId := some "item1"
        responseStartTimestamp := some 1000
        latestMediaTimestamp := 1450
        isBargeInAvailable := true }
    "item1" 1000 rfl (by decide) rfl rfl
  refine ⟨?_, h.2⟩
  rw [h.1]
  norm_num

/-- The previously registered session used to exhibit the duplicate-start
behavior of claim C1. -/
def dupOldSession : Session :=
  { initSession "S1" (some "CA1") "key" none with
      modelConn := true
      hasAssistantSpoken := true
      latestMediaTimestamp := 777 }

/-- Claim C1 counterexample: a second `start` event for a stream id that
is already live does NOT leave the registry mapping to the previously
existing session — the entry is overwritten by a fresh one. -/
theorem duplicate_start_cex :
    mapGet "S1"
      ((handleStart { sessions := [("S1", dupOldSession)], pendingCallInfo := [] }
          "S1" (some "CA1") "key").1.sessions)
      ≠ some dupOldSession := by decide

/-- Claim C1 (amended): the `start` handler performs no duplicate check;
it always builds a fresh session and `Map.set` overwrites whatever was
registered under that stream id. -/
theorem start_overwrites_registry (st : SMState) (sid : String) (cs : Option String)
    (key : String) :
    mapGet sid ((handleStart st sid cs key).1.sessions)
      = some { initSession sid cs key (retrieveCallInfo st.pendingCallInfo cs).1 with
                modelConn := true } := by
  simp [handleStart, mapGet_mapSet_self]

/-- Claim C5: session cleanup is idempotent — when the stream id is
registered, one `closeSession` produces exactly one `call.ended`
notification and removes the entry, and a second `closeSession` is a
complete no-op (same registry, no outputs). -/
theorem closeSession_idempotent (r : List (String × Session)) (sid : String) (s : Session)
    (h : mapGet sid r = some s) :
    countCallEnded (closeSession r sid).2 = 1
    ∧ mapGet sid (closeSession r sid).1 = none
    ∧ closeSession (closeSession r sid).1 sid = ((closeSession r sid).1, []) := by
  refine ⟨?_, ?_, ?_⟩
  · simp only [closeSession, h]
    cases s.twilioConn <;> cases s.modelConn <;> cases s.frontendConn <;>
      cases s.greetingTimer <;> simp [countCallEnded, countCallEnded_append]
  · simp [closeSession, h, mapGet_mapDelete_self]
  · simp [closeSession, h, mapGet_mapDelete_self]

/-- Claim C5 witness at a concrete one-session registry. -/
theorem closeSession_idempotent_witness :
    mapGet "S1" [("S1", dupOldSession)] = some dupOldSession
    ∧ countCallEnded (closeSession [("S1", dupOldSession)] "S1").2 = 1
    ∧ mapGet "S1" (closeSession [("S1", dupOldSession)] "S1").1 = none
    ∧ closeSession (closeSession [("S1", dupOldSession)] "S1").1 "S1"
        = ((closeSession [("S1", dupOldSession)] "S1").1, []) := by
  have h := closeSession_idempotent [("S1", dupOldSession)] "S1" dupOldSession (by decide)
  exact ⟨by decide, h.1, h.2.1, h.2.2⟩

/-- Claim C9: from an empty counter, each of the first three busy signals
schedules exactly one delayed re-dial for destination `D`; the fourth
schedules none and drops the counter entry; and a `completed` signal for
`D` clears the counter from any state. -/
theorem retry_scheduler_policy (D F : String) (m : List (String × Nat)) :
    scheduleRetry [] D F = ([(D, 1)], [Output.scheduleDial D F])
    ∧ scheduleRetry [(D, 1)] D F = ([(D, 2)], [Output.scheduleDial D F])
    ∧ scheduleRetry [(D, 2)] D F = ([(D, 3)], [Output.scheduleDial D F])
    ∧ scheduleRetry [(D, 3)] D F = ([], [])
    ∧ mapGet D (clearRetry m D) = none
    ∧ handleStatusCallback [(D, 2)] "completed" D F = ([], []) := by
  refine ⟨?_, ?_, ?_, ?_, ?_, ?_⟩ <;>
    simp [scheduleRetry, clearRetry, handleStatusCallback, mapGet, mapSet, mapDelete,
      MAX_RETRIES, mapGet_mapDelete_self]

/-- Claim C3: a completed assistant transcript containing the escalation
sentinel anywhere yields exactly the single `trigger_escalation` mark
request (and nothing else — escalation itself is deferred); without the
sentinel no `trigger_escalation` mark is ever sent; and the telephony
echo of that mark schedules exactly one deferred escalation timeout. -/
theorem escalation_sentinel_policy (s s2 : Session) (text : String)
    (hmc : s2.modelConn = true) :
    (tsIncludes text "/////" = true →
      (handleModelMessage s (ModelEv.outputItemDoneMessage text)).2
        = [Output.markToTwilio "trigger_escalation"])
    ∧ (tsIncludes text "/////" = false →
      countMark "trigger_escalation"
        (handleModelMessage s (ModelEv.outputItemDoneMessage text)).2 = 0)
    ∧ countSetTimer TimerKind.escalationDelay (handleMarkEvt s2 "trigger_escalation").2 = 1
    ∧ (handleMarkEvt s2 "trigger_escalation").1.escalationTimer = true := by
  refine ⟨?_, ?_, ?_, ?_⟩
  · intro h
    have ht : text ≠ "" := by
      intro he
      rw [he] at h
      exact absurd h (by decide)
    simp [handleModelMessage, handleOutputItemMessage, ht, h]
  · intro h
    by_cases ht : text = ""
    · subst ht
      simp [handleModelMessage, handleOutputItemMessage, countMark, countMark_append]
    · simp only [handleModelMessage, handleOutputItemMessage, ht, h]
      split_ifs <;> simp [countMark, countMark_append]
  · simp [handleMarkEvt, hmc, countSetTimer, countSetTimer_append]
  · simp [handleMarkEvt, hmc]

/-- Claim C3 witness: a transcript with the sentinel mid-string sends the
single escalation mark, and the mark echo arms the deferred escalation. -/
theorem escalation_sentinel_policy_witness :
    ({ initSession "S1" (some "CA1") "key" none with modelConn := true } : Session).modelConn = true
    ∧ (handleModelMessage (initSession "S1" (some "CA1") "key" none)
        (ModelEv.outputItemDoneMessage "ok no problem, I will connect you. ///// thanks")).2
        = [Output.markToTwilio "trigger_escalation"] := by
  refine ⟨rfl, ?_⟩
  exact (escalation_sentinel_policy (initSession "S1" (some "CA1") "key" none)
    { initSession "S1" (some "CA1") "key" none with modelConn := true }
    "ok no problem, I will connect you. ///// thanks" rfl).1 (by decide)

/-- Claim C10: when a transcript contains both the escalation sentinel and
the end-call sentinel, only the escalation mark is sent to telephony; the
handler returns before the end-call check, so no `end_call_triggered`
mark is produced. -/
theorem sentinel_precedence (s : Session) (text : String)
    (h1 : tsIncludes text "/////" = true) (_h2 : tsIncludes text "/?/" = true) :
    Output.markToTwilio "trigger_escalation"
        ∈ (handleModelMessage s (ModelEv.outputItemDoneMessage text)).2
    ∧ Output.markToTwilio "end_call_triggered"
        ∉ (handleModelMessage s (ModelEv.outputItemDoneMessage text)).2 := by
  have ht : text ≠ "" := by
    intro he
    rw [he] at h1
    exact absurd h1 (by decide)
  simp [handleModelMessage, handleOutputItemMessage, ht, h1]

/-- Claim C10 witness: a transcript with both sentinels. -/
theorem sentinel_precedence_witness :
    tsIncludes "I will connect you ///// or end /?/" "/////" = true
    ∧ tsIncludes "I will connect you ///// or end /?/" "/?/" = true
    ∧ Output.markToTwilio "trigger_escalation"
        ∈ (handleModelMessage (initSession "S1" none "key" none)
            (ModelEv.outputItemDoneMessage "I will connect you ///// or end /?/")).2
    ∧ Output.markToTwilio "end_call_triggered"
        ∉ (handleModelMessage (initSession "S1" none "key" none)
            (ModelEv.outputItemDoneMessage "I will connect you ///// or end /?/")).2 := by
  have h := sentinel_precedence (initSession "S1" none "key" none)
    "I will connect you ///// or end /?/" (by decide) (by decide)
  exact ⟨by decide, by decide, h.1, h.2⟩

/-- The fully-timered session used to exhibit the cleanup gap of
claim C6. -/
def timeredSession : Session :=
  { initSession "S1" (some "CA1") "key" none with
      modelConn := true
      greetingTimer := true
      silenceTimer := true
      speechTimer := true }

/-- Claim C6 counterexample: cleanup of a session with all three timers
pending cancels only the greeting timer — no `clearTimeout` is issued for
the silence or speech-settle timers. -/
theorem cleanup_timers_cex :
    Output.clearTimer TimerKind.silence ∉ (closeSession [("S1", timeredSession)] "S1").2
    ∧ Output.clearTimer TimerKind.speech ∉ (closeSession [("S1", timeredSession)] "S1").2
    ∧ Output.clearTimer TimerKind.greeting ∈ (closeSession [("S1", timeredSession)] "S1").2 := by
  decide

/-- Claim C6 (amended): the terminal cleanup path closes the telephony and
AI connections and removes the registry entry, but cancels only the
greeting timer; it never issues a cancellation for the silence timer or
the speech-settle timer, so those may still fire after cleanup. -/
theorem closeSession_cleanup_effects (r : List (String × Session)) (sid : String)
    (s : Session) (h : mapGet sid r = some s) :
    mapGet sid (closeSession r sid).1 = none
    ∧ (s.twilioConn = true → Output.closeTwilio ∈ (closeSession r sid).2)
    ∧ (s.modelConn = true → Output.closeModel ∈ (closeSession r sid).2)
    ∧ (s.greetingTimer = true → Output.clearTimer TimerKind.greeting ∈ (closeSession r sid).2)
    ∧ Output.clearTimer TimerKind.silence ∉ (closeSession r sid).2
    ∧ Output.clearTimer TimerKind.speech ∉ (closeSession r sid).2 := by
  refine ⟨by simp [closeSession, h, mapGet_mapDelete_self], ?_, ?_, ?_, ?_, ?_⟩ <;>
    simp only [closeSession, h] <;>
    cases htw : s.twilioConn <;> cases hmo : s.modelConn <;> cases hfr : s.frontendConn <;>
      cases hgr : s.greetingTimer <;> simp

/-- Claim C6 witness (amended form) at the fully-timered session. -/
theorem closeSession_cleanup_effects_witness :
    mapGet "S1" [("S1", timeredSession)] = some timeredSession
    ∧ mapGet "S1" (closeSession [("S1", timeredSession)] "S1").1 = none
    ∧ Output.closeTwilio ∈ (closeSession [("S1", timeredSession)] "S1").2
    ∧ Output.closeModel ∈ (closeSession [("S1", timeredSession)] "S1").2
    ∧ Output.clearTimer TimerKind.greeting ∈ (closeSession [("S1", timeredSession)] "S1").2 := by
  have h := closeSession_cleanup_effects [("S1", timeredSession)] "S1" timeredSession (by decide)
  exact ⟨by decide, h.1, h.2.1 rfl, h.2.2.1 rfl, h.2.2.2.1 rfl⟩

/-- Claim C7 counterexample: a stream that starts with no staged webhook
info, followed by the webhook reporting `{from, to}` for the matching call
id, leaves the existing session's phone metadata empty — `storeCallInfo`
only writes the staging map and is never joined into a live session — and
later observer broadcasts for that stream carry no phone numbers. -/
theorem late_webhook_cex :
    ((mapGet "S1"
        (storeCallInfo
          (handleStart { sessions := [], pendingCallInfo := [] } "S1" (some "CA7") "key").1
          "CA7" "+15551234567" "+17771234567").sessions).map Session.fromPhoneNumber
      = some none)
    ∧ ((mapGet "S1"
        (storeCallInfo
          (handleStart { sessions := [], pendingCallInfo := [] } "S1" (some "CA7") "key").1
          "CA7" "+15551234567" "+17771234567").sessions).map eventWithPhoneInfo
      = some { fromPhoneNumber := none, toPhoneNumber := none, callSid := some "CA7" }) := by
  decide

/-- Claim C7 (amended): the join works only in the webhook-before-start
order — when `storeCallInfo` runs before the `start` event with the
matching call id, the new session carries the reported numbers, the
`call.started` broadcast carries them, and every annotated model-event
broadcast for that stream carries them. -/
theorem webhook_before_start_joins (st : SMState) (sid cs fromNum toNum key : String)
    (hcs : cs ≠ "") (hf : fromNum ≠ "") (ht : toNum ≠ "") :
    ((mapGet sid (handleStart (storeCallInfo st cs fromNum toNum) sid (some cs) key).1.sessions).map
        Session.fromPhoneNumber = some (some fromNum))
    ∧ ((mapGet sid (handleStart (storeCallInfo st cs fromNum toNum) sid (some cs) key).1.sessions).map
        Session.toPhoneNumber = some (some toNum))
    ∧ ((mapGet sid (handleStart (storeCallInfo st cs fromNum toNum) sid (some cs) key).1.sessions).map
        eventWithPhoneInfo
      = some { fromPhoneNumber := some fromNum, toPhoneNumber := some toNum, callSid := some cs })
    ∧ (handleStart (storeCallInfo st cs fromNum toNum) sid (some cs) key).2
      = [Output.callStartedBroadcast sid (some cs) (some fromNum) (some toNum)] := by
  have hinfo : retrieveCallInfo (storeCallInfo st cs fromNum toNum).pendingCallInfo (some cs)
      = (some (fromNum, toNum),
         mapDelete cs (mapSet cs (fromNum, toNum) st.pendingCallInfo)) := by
    simp [retrieveCallInfo, storeCallInfo, tsTruthyStr, hcs, mapGet_mapSet_self]
  refine ⟨?_, ?_, ?_, ?_⟩ <;>
    simp [handleStart, hinfo, mapGet_mapSet_self, initSession, eventWithPhoneInfo,
      tsOptStr, hf, ht, hcs]

/-- Claim C7 witness (amended form): webhook first, then stream start. -/
theorem webhook_before_start_joins_witness :
    ("CA7" : String) ≠ ""
    ∧ ((mapGet "S1"
        (handleStart (storeCallInfo { sessions := [], pendingCallInfo := [] }
            "CA7" "+15551234567" "+17771234567") "S1" (some "CA7") "key").1.sessions).map
        Session.fromPhoneNumber = some (some "+15551234567"))
    ∧ ((mapGet "S1"
        (handleStart (storeCallInfo { sessions := [], pendingCallInfo := [] }
            "CA7" "+15551234567" "+17771234567") "S1" (some "CA7") "key").1.sessions).map
        eventWithPhoneInfo
      = some { fromPhoneNumber := some "+15551234567", toPhoneNumber := some "+17771234567",
               callSid := some "CA7" }) := by
  have h := webhook_before_start_joins { sessions := [], pendingCallInfo := [] }
    "S1" "CA7" "+15551234567" "+17771234567" "key" (by decide) (by decide) (by decide)
  exact ⟨by decide, h.1, h.2.2.1⟩

theorem handleModelMessage_silenceTimer (s : Session) (m : ModelEv) :
    (handleModelMessage s m).1.silenceTimer = s.silenceTimer := by
  cases m <;>
    simp only [handleModelMessage, handleOutputItemMessage, triggerEscalation] <;>
    split_ifs <;> rfl

theorem handleMediaEvt_silenceTimer (s : Session) (ts : Int) (p : String) :
    (handleMediaEvt s ts p).1.silenceTimer = s.silenceTimer := by
  simp only [handleMediaEvt]
  split_ifs <;> rfl

theorem handleMarkEvt_silenceTimer_other (s : Session) (n : String) (hn : n ≠ "ai_done") :
    (handleMarkEvt s n).1.silenceTimer = s.silenceTimer := by
  simp only [handleMarkEvt]
  split_ifs <;> rfl

theorem fireGreetingTimer_silenceTimer (s : Session) :
    (fireGreetingTimer s).1.silenceTimer = s.silenceTimer := by
  simp only [fireGreetingTimer, sendGreeting]
  split_ifs <;> rfl

theorem fireSilenceTimer_silenceTimer (s : Session) :
    (fireSilenceTimer s).1.silenceTimer = false := by
  simp only [fireSilenceTimer, handleSilence, endCall]
  split_ifs <;> rfl

theorem fireSpeechTimer_silenceTimer (s : Session) :
    (fireSpeechTimer s).1.silenceTimer = false ∨
      (fireSpeechTimer s).1.silenceTimer = s.silenceTimer := by
  simp only [fireSpeechTimer, interruptAssistant]
  split_ifs <;> simp

theorem fireEndCallTimer_silenceTimer (s : Session) :
    (fireEndCallTimer s).1.silenceTimer = s.silenceTimer := by
  simp only [fireEndCallTimer, endCall]
  split_ifs <;> rfl

theorem fireEscalationTimer_silenceTimer (s : Session) :
    (fireEscalationTimer s).1.silenceTimer = s.silenceTimer := by
  simp only [fireEscalationTimer, triggerEscalation]
  split_ifs <;> rfl

/-- Claim C4: after a completed turn, two consecutive silence windows
drive the caller state `idle → silence → ended`: the first fire injects
exactly one synthesized `<<Silence>>` prompt and moves to `silence`; the
second fire terminates the call (clear plus both closes). The silence
timer is re-armed by the telephony `ai_done` mark echo and never by the
model's end-of-audio event — no other event arms it. -/
theorem silence_window_policy (s s' : Session) (e : SEv)
    (hcs : s.callerState = "idle") (hai : s.isAiSpeaking = false)
    (hmc : s.modelConn = true) (htw : s.twilioConn = true) :
    (fireSilenceTimer s).1.callerState = "silence"
    ∧ countItemCreate "<<Silence>>" (fireSilenceTimer s).2 = 1
    ∧ (fireSilenceTimer (fireSilenceTimer s).1).2
        = [Output.templateSet "silence-goodbye", Output.clearToTwilio,
           Output.closeTwilio, Output.closeModel]
    ∧ (handleModelMessage s ModelEv.audioDone).1.silenceTimer = s.silenceTimer
    ∧ countSetTimer TimerKind.silence (handleModelMessage s ModelEv.audioDone).2 = 0
    ∧ (handleMarkEvt s "ai_done").1.silenceTimer = true
    ∧ ((stepS s' e).1.silenceTimer = true → s'.silenceTimer = true ∨ e = SEv.twilioMark "ai_done") := by
  refine ⟨?_, ?_, ?_, ?_, ?_, ?_, ?_⟩
  · simp [fireSilenceTimer, handleSilence, hcs, hai, hmc]
  · simp [fireSilenceTimer, handleSilence, hcs, hai, hmc, countItemCreate]
  · simp [fireSilenceTimer, handleSilence, endCall, hcs, hai, hmc, htw]
  · exact handleModelMessage_silenceTimer s ModelEv.audioDone
  · simp [handleModelMessage, hcs, countSetTimer, countSetTimer_append, eventWithPhoneInfo]
  · simp [handleMarkEvt, hmc]
  · intro h
    cases e with
    | modelMsg m => exact Or.inl ((handleModelMessage_silenceTimer s' m) ▸ h)
    | twilioMedia ts p => exact Or.inl ((handleMediaEvt_silenceTimer s' ts p) ▸ h)
    | twilioMark n =>
        by_cases hn : n = "ai_done"
        · exact Or.inr (by rw [hn])
        · exact Or.inl ((handleMarkEvt_silenceTimer_other s' n hn) ▸ h)
    | fireGreeting => exact Or.inl ((fireGreetingTimer_silenceTimer s') ▸ h)
    | fireSilence =>
        exact absurd ((fireSilenceTimer_silenceTimer s') ▸ h) (by decide)
    | fireSpeech =>
        rcases fireSpeechTimer_silenceTimer s' with hf | hf
        · exact absurd (hf ▸ h) (by decide)
        · exact Or.inl (hf ▸ h)
    | fireBarge => exact Or.inl h
    | fireEndCallDelay => exact Or.inl ((fireEndCallTimer_silenceTimer s') ▸ h)
    | fireEscalationDelay => exact Or.inl ((fireEscalationTimer_silenceTimer s') ▸ h)

/-- Claim C4 witness at a fresh idle session. -/
theorem silence_window_policy_witness :
    (({ initSession "S1" (some "CA1") "key" none with modelConn := true } : Session).callerState = "idle"
      ∧ ({ initSession "S1" (some "CA1") "key" none with modelConn := true } : Session).isAiSpeaking = false)
    ∧ (fireSilenceTimer { initSession "S1" (some "CA1") "key" none with modelConn := true }).1.callerState = "silence"
    ∧ countItemCreate "<<Silence>>"
        (fireSilenceTimer { initSession "S1" (some "CA1") "key" none with modelConn := true }).2 = 1
    ∧ (fireSilenceTimer
        (fireSilenceTimer { initSession "S1" (some "CA1") "key" none with modelConn := true }).1).2
        = [Output.templateSet "silence-goodbye", Output.clearToTwilio,
           Output.closeTwilio, Output.closeModel] := by
  have h := silence_window_policy
    { initSession "S1" (some "CA1") "key" none with modelConn := true }
    { initSession "S1" (some "CA1") "key" none with modelConn := true }
    SEv.fireBarge rfl rfl rfl rfl
  exact ⟨⟨rfl, rfl⟩, h.1, h.2.1, h.2.2.1⟩

theorem interruptAssistant_clears (s : Session) :
    (interruptAssistant s).1 = s
    ∨ ((interruptAssistant s).1.lastAssistantItemId = none
        ∧ (interruptAssistant s).1.responseStartTimestamp = none) := by
  simp only [interruptAssistant]
  split_ifs <;> simp

theorem interruptAssistant_item_resp (s : Session)
    (h : (s.lastAssistantItemId.isSome && !s.responseStartTimestamp.isSome) = false) :
    ((interruptAssistant s).1.lastAssistantItemId.isSome
      && !(interruptAssistant s).1.responseStartTimestamp.isSome) = false := by
  simp only [interruptAssistant]
  split_ifs <;> simpa using h

theorem audioDelta_resp_isSome (s : Session) (i : Option String) (d : String) :
    ((handleModelMessage s (ModelEv.audioDelta i d)).1.responseStartTimestamp).isSome = true := by
  cases hr : s.responseStartTimestamp with
  | none =>
      simp only [handleModelMessage, hr, tsTruthyInt]
      split_ifs <;> simp_all
  | some v =>
      by_cases hv : v = 0
      · subst hv
        simp only [handleModelMessage, hr, tsTruthyInt]
        split_ifs <;> simp_all
      · simp only [handleModelMessage, hr, tsTruthyInt]
        split_ifs <;> simp_all

/-- Preservation of the one-directional link between the in-flight item id
and the turn-start timestamp under every session-level event. -/
theorem stepS_item_resp (s : Session) (e : SEv)
    (h : (s.lastAssistantItemId.isSome && !s.responseStartTimestamp.isSome) = false) :
    ((stepS s e).1.lastAssistantItemId.isSome
      && !(stepS s e).1.responseStartTimestamp.isSome) = false := by
  cases e with
  | modelMsg m =>
      cases m with
      | audioDelta i d =>
          have hs := audioDelta_resp_isSome s i d
          simp [stepS, hs]
      | errorEvt => simpa [stepS, handleModelMessage] using h
      | responseDone n st => simpa [stepS, handleModelMessage] using h
      | transcriptionFailed msg =>
          simp only [stepS, handleModelMessage, triggerEscalation]
          split_ifs <;> simpa using h
      | speechStopped => simpa [stepS, handleModelMessage] using h
      | speechStarted =>
          simp only [stepS, handleModelMessage]
          split_ifs <;> simpa using h
      | audioDone =>
          simp only [stepS, handleModelMessage]
          split_ifs <;> simpa using h
      | outputItemDoneMessage t =>
          simp only [stepS, handleModelMessage, handleOutputItemMessage]
          split_ifs <;> simpa using h
      | otherEvt => simpa [stepS, handleModelMessage] using h
  | twilioMedia ts p =>
      simp only [stepS, handleMediaEvt]
      split_ifs <;> simpa using h
  | twilioMark n =>
      simp only [stepS, handleMarkEvt]
      split_ifs <;> simpa using h
  | fireGreeting =>
      simp only [stepS, fireGreetingTimer, sendGreeting]
      split_ifs <;> simpa using h
  | fireSilence =>
      simp only [stepS, fireSilenceTimer, handleSilence, endCall]
      split_ifs <;> simpa using h
  | fireSpeech =>
      have key := interruptAssistant_item_resp
        { s with speechTimer := false, silenceTimer := false, greetingTimer := false,
                 isBargeInAvailable := true } h
      simp only [stepS, fireSpeechTimer]
      split_ifs <;> first | simpa using key | simpa using h
  | fireBarge => simpa [stepS] using h
  | fireEndCallDelay =>
      simp only [stepS, fireEndCallTimer, endCall]
      split_ifs <;> simpa using h
  | fireEscalationDelay =>
      simp only [stepS, fireEscalationTimer, triggerEscalation]
      split_ifs <;> simpa using h

/-- Claim C8 counterexample: the biconditional fails on a reachable state
— a `response.audio.delta` carrying no `item_id` sets
`responseStartTimestamp` but leaves `lastAssistantItemId` undefined. -/
theorem item_resp_iff_cex :
    ¬ (∀ evs : List SEv,
        (runS { initSession "S1" (some "CA1") "key" none with modelConn := true } evs).responseStartTimestamp.isSome
          = (runS { initSession "S1" (some "CA1") "key" none with modelConn := true } evs).lastAssistantItemId.isSome) :=
  fun h => absurd (h [SEv.modelMsg (ModelEv.audioDelta none "payload")]) (by decide)

/-- Claim C8 (amended): over all reachable session states only one
direction of the invariant holds — whenever `lastAssistantItemId` is set,
`responseStartTimestamp` is set — and the interruption step clears both in
the same step (it either leaves the session untouched or clears both).
The converse direction fails when a `response.audio.delta` arrives
without an `item_id`. -/
theorem item_resp_invariant (sid key : String) (cs : Option String)
    (info : Option (String × String)) (evs : List SEv) :
    ((runS { initSession sid cs key info with modelConn := true } evs).lastAssistantItemId.isSome
      && !(runS { initSession sid cs key info with modelConn := true } evs).responseStartTimestamp.isSome) = false
    ∧ ∀ s : Session,
        (interruptAssistant s).1 = s
        ∨ ((interruptAssistant s).1.lastAssistantItemId = none
            ∧ (interruptAssistant s).1.responseStartTimestamp = none) := by
  constructor
  · have H : ∀ (l : List SEv) (s : Session),
        (s.lastAssistantItemId.isSome && !s.responseStartTimestamp.isSome) = false →
        ((runS s l).lastAssistantItemId.isSome
          && !(runS s l).responseStartTimestamp.isSome) = false := by
      intro l
      induction l with
      | nil =>
          intro s h
          simpa [runS] using h
      | cons e rest ih =>
          intro s h
          have h1 := stepS_item_resp s e h
          simpa [runS] using ih (stepS s e).1 h1
    exact H evs _ (by simp [initSession])
  · exact interruptAssistant_clears
